import Mathlib

/-!
# Verification of `chatgpt.py` (loirth/chatgpt-cli)

Shallow embedding of the message-exchange pipeline (class `ChatGPT`), the
SQLite-backed history store (class `Database`) and the orchestration layer
(class `CommandLineInterface`) of `src/chatgpt.py`, together with theorems
settling the specification claims.

Modelling conventions:
* The OpenAI network call is abstracted by an oracle: a list of `Outcome`
  values, one consumed per attempted request, each being a successful reply,
  a transient connection error (`openai.error.APIConnectionError`) or a
  fatal, classified error.
* The SQLite engine is modelled by a list of rows in rowid (insertion) order.
  `SELECT` without `ORDER BY` scans in rowid order;
  `ORDER BY timestamp DESC LIMIT 1` returns, among the rows of maximal
  timestamp, the one with the smallest rowid (SQLite's temporary-b-tree sort
  is stable over the scan order; verified against sqlite 3.40).
* `sys.exit(n)` is modelled by an explicit `exited n` result; `logger`
  output is modelled only where a claim mentions it.
-/

/-- One element of the `messages` list: a `{"role": ..., "content": ...}`
dictionary as built by `ChatGPT.create_message`. -/
structure Turn where
  role : String
  content : String
deriving Repr, DecidableEq

/-- The classified fatal error kinds of `ChatGPT.create_message`'s `except`
clauses other than `APIConnectionError` (which is the transient kind). -/
inductive ErrKind
  | apiError
  | rateLimited
  | authenticationFailed
  | invalidRequest
  | unknown
deriving Repr, DecidableEq

/-- The outcome of one network attempt (`ChatGPT.send_request`), as seen by
`create_message`'s `try`/`except` dispatch. -/
inductive Outcome
  | success (reply : String)
  | transient
  | fatal (k : ErrKind)
deriving Repr, DecidableEq

/-- The characters Python's `str.strip()` removes by default (ASCII
whitespace; the source never feeds non-ASCII whitespace to `strip`). -/
def isPyWhitespace (c : Char) : Bool :=
  c = ' ' || c = '\t' || c = '\n' || c = '\r' || c = '\x0b' || c = '\x0c'

/-- Python `str.strip()`. -/
def pyStrip (s : String) : String :=
  ⟨((s.data.dropWhile isPyWhitespace).reverse.dropWhile isPyWhitespace).reverse⟩

/-- Python `str.lower()` (ASCII case folding suffices for the source's use). -/
def pyLower (s : String) : String :=
  ⟨s.data.map Char.toLower⟩

/-- The tuple of exit keywords in `ChatGPT.create_message`:
`(":q!", "q", "exit()",)`. -/
def exitKeywords : List String := [":q!", "q", "exit()"]

/-- The reserved-word test `content.strip().lower() in (":q!", "q", "exit()",)`
of `ChatGPT.create_message`. -/
def isExitKeyword (content : String) : Bool :=
  exitKeywords.contains (pyLower (pyStrip content))

/-- Result of a `create_message` run: either the process exited with a status
code (via `sys.exit`), or a reply string was returned. -/
inductive AskResult
  | exited (code : Nat)
  | answered (reply : String)
deriving Repr, DecidableEq

/-- `ChatGPT.create_message(messages, content, author)` driven by an outcome
oracle.  Returns the result, the final `messages` list, and the number of
3-second `time.sleep(3)` waits performed; `none` if the oracle is exhausted
(only finitely many attempts are modelled).

Faithful to the source: the reserved-word check runs before anything else;
the user turn is appended *before* the request; a transient connection error
(`handle_connection_error`) sleeps 3 seconds and re-enters `create_message`
with the already-appended list, so the check and the append both run again;
every other error exits with status 1 via `handle_error`. -/
def create_message (author content : String) :
    List Outcome → List Turn → Option (AskResult × List Turn × Nat)
  | [], messages =>
    if isExitKeyword content then some (.exited 0, messages, 0) else none
  | o :: rest, messages =>
    if isExitKeyword content then some (.exited 0, messages, 0)
    else
      let msgs := messages ++ [⟨author, content⟩]
      match o with
      | .success r => some (.answered r, msgs, 0)
      | .fatal _ => some (.exited 1, msgs, 0)
      | .transient =>
        match create_message author content rest msgs with
        | none => none
        | some (res, m, sl) => some (res, m, sl + 1)

example :
    create_message "user" "q" [.success "hi"] [] = some (.exited 0, [], 0) := by
  decide

example :
    create_message "user" "hello" [.transient, .success "ok"] [] =
      some (.answered "ok",
        [⟨"user", "hello"⟩, ⟨"user", "hello"⟩], 1) := by
  decide

/-! ## The history store (`ConfigDB`, `Database`) -/

/-- One row of the `chat_messages` table:
`id INTEGER PRIMARY KEY AUTOINCREMENT, question TEXT, answer TEXT,
timestamp INTEGER`. -/
structure Row where
  id : Nat
  question : String
  answer : String
  timestamp : Nat
deriving Repr, DecidableEq

/-- The `chat_messages` table.  `rows` is kept in rowid order (the order a
full-table `SELECT` scans); `nextId` models the `AUTOINCREMENT` sequence
(strictly increasing, never reused even after deletes). -/
structure DB where
  nextId : Nat
  rows : List Row
deriving Repr, DecidableEq

/-- A freshly created database (after `Database.create_database`). -/
def DB.emptyDB : DB := ⟨1, []⟩

/-- `Database.insert_message(question, answer)` at clock reading `now`
(`timestamp = int(time.time())`): appends a new row with a fresh id.  Both
text fields are stored exactly as passed in. -/
def insert_message (db : DB) (question answer : String) (now : Nat) : DB :=
  ⟨db.nextId + 1, db.rows ++ [⟨db.nextId, question, answer, now⟩]⟩

/-- The row produced by
`SELECT ... FROM chat_messages ORDER BY timestamp DESC LIMIT 1`:
among rows of maximal timestamp, the one earliest in scan (rowid) order —
SQLite's sort is stable here, so ties go to the smallest id, as observed on
the engine. -/
def selectLast : List Row → Option Row
  | [] => none
  | r :: rs =>
    match selectLast rs with
    | none => some r
    | some best => if best.timestamp > r.timestamp then some best else some r

/-- The dictionary the read operations return:
`{"question": ..., "answer": ..., "timestamp": ...}` — the timestamp is a
human-readable string and there is no `id` key. -/
structure Message where
  question : String
  answer : String
  timestamp : String
deriving Repr, DecidableEq

/-- Result of a `Database` operation in the running CLI process: either a
value, or process termination with an exit status (the `Database` read
operations call `handle_error`, which logs the given message and does
`sys.exit(1)`). -/
inductive DbResult (α : Type)
  | ok (v : α)
  | exited (code : Nat) (msg : String)
deriving Repr, DecidableEq

/-- `ConfigDB.readable_timestamp`:
`datetime.utcfromtimestamp(ts).strftime('%Y-%m-%d %H:%M:%S')`.
Civil-from-days (proleptic Gregorian) computation of the UTC date, then
fixed-width zero-padded rendering.  Returns `(year, month, day)`. -/
def civilFromDays (days : Nat) : Nat × Nat × Nat :=
  let z := days + 719468
  let era := z / 146097
  let doe := z % 146097
  let yoe := (doe - doe / 1460 + doe / 36524 - doe / 146096) / 365
  let y := yoe + era * 400
  let doy := doe - (365 * yoe + yoe / 4 - yoe / 100)
  let mp := (5 * doy + 2) / 153
  let d := doy - (153 * mp + 2) / 5 + 1
  let m := if mp < 10 then mp + 3 else mp - 9
  (if m ≤ 2 then y + 1 else y, m, d)

/-- The decimal digit character of `n % 10`. -/
def digitChar (n : Nat) : Char :=
  Char.ofNat (48 + n % 10)

/-- `ConfigDB.readable_timestamp(timestamp)`: every `strftime` field is
rendered zero-padded at fixed width (`%Y` four digits, the rest two), which
is what CPython produces for timestamps from 1970 up to year 9999
(`ts < 253402300800`), the range this embedding covers. -/
def readable_timestamp (ts : Nat) : String :=
  let c := civilFromDays (ts / 86400)
  let y := c.1
  let m := c.2.1
  let d := c.2.2
  let secs := ts % 86400
  let hh := secs / 3600
  let mi := secs % 3600 / 60
  let ss := secs % 60
  ⟨[digitChar (y / 1000), digitChar (y / 100), digitChar (y / 10),
    digitChar y, '-', digitChar (m / 10), digitChar m, '-',
    digitChar (d / 10), digitChar d, ' ', digitChar (hh / 10), digitChar hh,
    ':', digitChar (mi / 10), digitChar mi, ':', digitChar (ss / 10),
    digitChar ss]⟩

example : readable_timestamp 0 = "1970-01-01 00:00:00" := by decide

/-- How the read operations turn a stored row into the returned dictionary:
`question` as stored, `answer.strip()`, `readable_timestamp(timestamp)`. -/
def rowToMessage (r : Row) : Message :=
  ⟨r.question, pyStrip r.answer, readable_timestamp r.timestamp⟩

/-- `Database.get_message_history()`: full-table `SELECT` in scan order; an
empty result calls `handle_error` (exit status 1). -/
def get_message_history (db : DB) : DbResult (List Message) :=
  match db.rows with
  | [] => .exited 1 "[-] There is no history in the database yet."
  | _ => .ok (db.rows.map rowToMessage)

/-- `Database.get_last_message()`: `ORDER BY timestamp DESC LIMIT 1`; a
`None` row calls `handle_error` (exit status 1). -/
def get_last_message (db : DB) : DbResult Message :=
  match selectLast db.rows with
  | none => .exited 1 "[-] There are no messages in the database yet."
  | some r => .ok (rowToMessage r)

/-- `Database.delete_last_message()`:
`DELETE FROM chat_messages WHERE id IN (SELECT id ... ORDER BY timestamp
DESC LIMIT 1)`; zero affected rows calls `handle_error` (exit status 1). -/
def delete_last_message (db : DB) : DbResult DB :=
  match selectLast db.rows with
  | none => .exited 1 "[-] There are no messages in the database yet."
  | some r => .ok ⟨db.nextId, db.rows.filter (fun x => x.id ≠ r.id)⟩

/-- `Database.clear_message_history()`: `DELETE FROM chat_messages` with no
`WHERE` clause — succeeds on any store, empty included. -/
def clear_message_history (db : DB) : DbResult DB :=
  .ok ⟨db.nextId, []⟩

/-! ## The orchestration layer (`CommandLineInterface.send_message`) -/

/-- State visible after one `CommandLineInterface.send_message` call. -/
structure SendOut where
  result : AskResult
  messages : List Turn
  db : DB
  sleeps : Nat
deriving Repr, DecidableEq

/-- `CommandLineInterface.send_message(arr_messages, message)` at clock
reading `now`: runs `create_message`; only when that returns a reply does
`insert_message(message, answer)` run (a `sys.exit` raised inside
`create_message` propagates, so the failed exchange is never persisted). -/
def send_message (outs : List Outcome) (db : DB) (messages : List Turn)
    (content : String) (now : Nat) : Option SendOut :=
  match create_message "user" content outs messages with
  | none => none
  | some (.exited c, msgs, sl) => some ⟨.exited c, msgs, db, sl⟩
  | some (.answered r, msgs, sl) =>
      some ⟨.answered r, msgs, insert_message db content r now, sl⟩

example :
    send_message [.transient, .transient, .transient, .success "fine"]
        DB.emptyDB [] "hi" 42 =
      some ⟨.answered "fine",
        [⟨"user", "hi"⟩, ⟨"user", "hi"⟩, ⟨"user", "hi"⟩, ⟨"user", "hi"⟩],
        ⟨2, [⟨1, "hi", "fine", 42⟩]⟩, 3⟩ := by
  decide

/-! ## The storage-engine error path (`Database.execute_request`) -/

/-- What the sqlite engine does with one handed-over statement: success with
a cursor value, or an `sqlite3.Error` carrying a message. -/
inductive EngineResult (α : Type)
  | ok (v : α)
  | sqliteError (msg : String)
deriving Repr, DecidableEq

/-- What one `Database.execute_request` call produces and what its caller
observes. -/
structure ExecOut (α : Type) where
  /-- The returned value: the cursor on success, `None` when the `except`
  branch ran (the function body ends without a `return` there). -/
  value : Option α
  /-- `logger.error` output emitted by this call. -/
  log : List String
  /-- Whether an exception propagated out of the call to its caller. -/
  raised : Bool
deriving Repr, DecidableEq

/-- `Database.execute_request(query, parameters, action)`: on success the
cursor is returned; on `sqlite3.Error` the message
`f"Database {action} error: {error}"` is logged and the function returns
`None` — the exception is caught and never re-raised. -/
def execute_request (α : Type) (engine : EngineResult α)
    (action : String) : ExecOut α :=
  match engine with
  | .ok v => ⟨some v, [], false⟩
  | .sqliteError e =>
      ⟨none, ["Database " ++ action ++ " error: " ++ e], false⟩

/-- Observable effect of one `Database.insert_message` call together with the
engine's verdict on its INSERT statement. -/
structure InsertOut where
  db : DB
  log : List String
  /-- Whether any exception propagated out of `insert_message`. -/
  raised : Bool
deriving Repr, DecidableEq

/-- `Database.insert_message(question, answer)` at clock reading `now`, with
the engine reporting `engine` for the INSERT.  The call passes no `action`,
so the default `"operation"` is used; the cursor is discarded and the
function returns `None` in both branches. -/
def insert_message_run (db : DB) (question answer : String) (now : Nat)
    (engine : EngineResult Unit) : InsertOut :=
  let ex := execute_request Unit engine "operation"
  match engine with
  | .ok _ => ⟨insert_message db question answer now, ex.log, ex.raised⟩
  | .sqliteError _ => ⟨db, ex.log, ex.raised⟩

/-! ## The completion client (`ConfigGPT`, `ChatGPT.send_request`) -/

/-- `ConfigGPT`: immutable per-process settings. -/
structure ConfigGPT where
  api_key : String
  temperature : ℚ
  engine : String
  max_tokens : Nat
  chat_models : List String
deriving Repr, DecidableEq

/-- The default `chat_models` list of `ConfigGPT`. -/
def defaultChatModels : List String :=
  ["gpt-4", "gpt-4-0613", "gpt-4-32k", "gpt-4-32k-0613",
   "gpt-3.5-turbo", "gpt-3.5-turbo-0613", "gpt-3.5-turbo-16k",
   "gpt-3.5-turbo-16k-0613"]

/-- The module-level constant `DEFAULT_ENGINE`. -/
def DEFAULT_ENGINE : String := "gpt-3.5-turbo"

/-- The module-level constant `DEFAULT_TEMPERATURE = 0.7`. -/
def DEFAULT_TEMPERATURE : ℚ := 7 / 10

/-- The module-level constant `DEFAULT_MAX_TOKENS`. -/
def DEFAULT_MAX_TOKENS : Nat := 4096

/-- The two request shapes `ChatGPT.send_request` can put on the wire. -/
inductive Request
  | chatCompletion (model : String) (messages : List Turn)
  | completion (engine : String) (prompt : String) (temperature : ℚ)
      (max_tokens : Nat)
deriving Repr, DecidableEq

/-- The request `ChatGPT.send_request` builds for a given configuration and
`messages` list: `openai.ChatCompletion.create(model, messages)` when the
engine is in `chat_models`, otherwise `openai.Completion.create(engine,
prompt=messages[-1]["content"], temperature, max_tokens)`.  `messages[-1]`
on an empty list raises `IndexError`, modelled as `none`. -/
def send_request_req (cfg : ConfigGPT) (messages : List Turn) :
    Option Request :=
  if cfg.chat_models.contains cfg.engine then
    some (.chatCompletion cfg.engine messages)
  else
    match messages.getLast? with
    | none => none
    | some t =>
        some (.completion cfg.engine t.content cfg.temperature cfg.max_tokens)

/-- `ChatGPT.send_request(messages)` with the provider abstracted as a map
from requests to the extracted response text (`choices[0].message.content`
for the chat shape, `choices[0].text` for the completion shape). -/
def send_request (api : Request → String) (cfg : ConfigGPT)
    (messages : List Turn) : Option String :=
  (send_request_req cfg messages).map api

/-! ## Insert sequences -/

/-- The rows a sequence of `(question, answer, timestamp)` inserts produces,
with ids assigned from `startId` upward. -/
def rowsOf (startId : Nat) : List (String × String × Nat) → List Row
  | [] => []
  | (q, a, t) :: rest => ⟨startId, q, a, t⟩ :: rowsOf (startId + 1) rest

/-- A sequence of `Database.insert_message` calls. -/
def insertAll (db : DB) : List (String × String × Nat) → DB
  | [] => db
  | (q, a, t) :: rest => insertAll (insert_message db q a t) rest

/-! ## The timestamp rendering format -/

/-- Whether a string has the shape `%Y-%m-%d %H:%M:%S`: nineteen characters,
four digits, `-`, two digits, `-`, two digits, space, two digits, `:`, two
digits, `:`, two digits. -/
def isTimestampFormat (s : String) : Bool :=
  match s.data with
  | [y1, y2, y3, y4, a1, n1, n2, a2, d1, d2, a3,
     h1, h2, a4, m1, m2, a5, x1, x2] =>
      y1.isDigit && y2.isDigit && y3.isDigit && y4.isDigit && a1 = '-' &&
      n1.isDigit && n2.isDigit && a2 = '-' && d1.isDigit && d2.isDigit &&
      a3 = ' ' && h1.isDigit && h2.isDigit && a4 = ':' && m1.isDigit &&
      m2.isDigit && a5 = ':' && x1.isDigit && x2.isDigit
  | _ => false

example : isTimestampFormat "1970-01-01 00:00:00" = true := by decide
example : isTimestampFormat "1970-1-1 0:0:0" = false := by decide

example : readable_timestamp 1700000000 = "2023-11-14 22:13:20" := by decide
example : readable_timestamp 951868800 = "2000-03-01 00:00:00" := by decide
example : readable_timestamp 4102444799 = "2099-12-31 23:59:59" := by decide
example : readable_timestamp 86400 = "1970-01-02 00:00:00" := by decide

/-! ## Helper lemmas: the retry loop -/

lemma replicate_append_singleton {α : Type} (n : Nat) (a : α) :
    List.replicate n a ++ [a] = List.replicate (n + 1) a :=
  (List.replicate_succ' n a).symm

/-- A run whose oracle starts with `n` transient connection errors re-enters
`create_message` `n` times: each re-entry appends the user turn again, and
each transient failure adds one 3-second wait. -/
lemma create_message_replicate_transient (author content : String)
    (h : isExitKeyword content = false) (n : Nat) (outs : List Outcome)
    (messages : List Turn) :
    create_message author content (List.replicate n .transient ++ outs)
        messages =
      (create_message author content outs
          (messages ++ List.replicate n ⟨author, content⟩)).map
        (fun p => (p.1, p.2.1, p.2.2 + n)) := by
  induction n generalizing messages with
  | zero =>
    simp only [List.replicate, List.nil_append, List.append_nil]
    cases create_message author content outs messages with
    | none => rfl
    | some p => rfl
  | succ n ih =>
    rw [List.replicate_succ, List.cons_append]
    simp only [create_message, h, Bool.false_eq_true, if_false]
    rw [ih]
    have hl : (messages ++ [(⟨author, content⟩ : Turn)]) ++
          List.replicate n ⟨author, content⟩ =
        messages ++ List.replicate (n + 1) ⟨author, content⟩ := by
      rw [List.append_assoc, List.replicate_succ, List.singleton_append]
    rw [hl]
    cases create_message author content outs
        (messages ++ List.replicate (n + 1) ⟨author, content⟩) with
    | none => rfl
    | some p =>
      rcases p with ⟨res, m, sl⟩
      simp [Nat.add_assoc]

/-! ## Claims C1–C3: the exchange pipeline -/

/-- C1 (claim as stated is false at this input): after one transient
connection failure followed by success, the retried request is *not* made
against the same, already-appended turn sequence — `handle_connection_error`
re-enters `create_message`, which appends the user's turn a second time, so
the turn appears twice, not exactly once. -/
theorem c1_counterexample :
    create_message "user" "hi" [.transient, .success "ok"] [] =
      some (.answered "ok", [⟨"user", "hi"⟩, ⟨"user", "hi"⟩], 1) ∧
    ([(⟨"user", "hi"⟩ : Turn), ⟨"user", "hi"⟩].count ⟨"user", "hi"⟩) ≠ 1 := by
  decide

/-- C1 (amended): when the completion call fails with `n` transient
connection errors and then succeeds, the session waits the fixed 3-second
delay `n` times and retries unboundedly until success; each retry re-appends
the user's turn (so it appears `n + 1` times, not once), the successful
reply is returned, and exactly one HistoryRecord is persisted. -/
theorem c1_transient_retry (n : Nat) (r content : String) (db : DB)
    (messages : List Turn) (now : Nat) (h : isExitKeyword content = false) :
    send_message (List.replicate n .transient ++ [.success r]) db messages
        content now =
      some ⟨.answered r, messages ++ List.replicate (n + 1) ⟨"user", content⟩,
        insert_message db content r now, n⟩ := by
  unfold send_message
  rw [create_message_replicate_transient "user" content h]
  simp only [create_message, h, Bool.false_eq_true, if_false]
  simp [List.append_assoc, replicate_append_singleton]

/-- C1 witness: three transient failures then success — the reply is
returned, three waits happened, the user turn was appended four times, and
exactly one record was inserted. -/
theorem c1_witness :
    isExitKeyword "hi" = false ∧
    send_message (List.replicate 3 .transient ++ [.success "fine"])
        DB.emptyDB [] "hi" 42 =
      some ⟨.answered "fine", [] ++ List.replicate 4 ⟨"user", "hi"⟩,
        insert_message DB.emptyDB "hi" "fine" 42, 3⟩ :=
  ⟨by decide, c1_transient_retry 3 "fine" "hi" DB.emptyDB [] 42 (by decide)⟩

/-- C2: for every non-transient failure kind (APIError, RateLimitError,
AuthenticationError, InvalidRequestError, or any unexpected exception), even
after any number of preceding transient retries, the exchange is not
retried: `handle_error` exits the process with status 1 and the history
store is left unchanged — no record is inserted for the failed exchange. -/
theorem c2_fatal_no_retry (n : Nat) (k : ErrKind) (db : DB)
    (messages : List Turn) (content : String) (now : Nat)
    (h : isExitKeyword content = false) :
    send_message (List.replicate n .transient ++ [.fatal k]) db messages
        content now =
      some ⟨.exited 1, messages ++ List.replicate (n + 1) ⟨"user", content⟩,
        db, n⟩ := by
  unfold send_message
  rw [create_message_replicate_transient "user" content h]
  simp only [create_message, h, Bool.false_eq_true, if_false]
  simp [List.append_assoc, replicate_append_singleton]

/-- C2 witness: a rate-limit failure on the first attempt exits with status 1
and leaves the (one-row) store unchanged. -/
theorem c2_witness :
    isExitKeyword "hello" = false ∧
    send_message [.fatal .rateLimited] ⟨2, [⟨1, "q", "a", 5⟩]⟩
        [] "hello" 9 =
      some ⟨.exited 1, [] ++ List.replicate 1 ⟨"user", "hello"⟩,
        ⟨2, [⟨1, "q", "a", 5⟩]⟩, 0⟩ :=
  ⟨by decide,
    c2_fatal_no_retry 0 .rateLimited ⟨2, [⟨1, "q", "a", 5⟩]⟩ [] "hello" 9
      (by decide)⟩

/-- C3 (claim as stated is false at this input): `"quit"` is not in the
source's exit-keyword tuple `(":q!", "q", "exit()")`, so supplying `"quit"`
does not terminate the session: the turn is appended, a network request is
made (the oracle outcome is consumed), and a HistoryRecord is inserted. -/
theorem c3_counterexample :
    isExitKeyword "quit" = false ∧
    send_message [.success "resp"] DB.emptyDB [] "quit" 7 =
      some ⟨.answered "resp", [⟨"user", "quit"⟩],
        ⟨2, [⟨1, "quit", "resp", 7⟩]⟩, 0⟩ := by
  decide

/-- C3 (amended): the exit-keyword set is `{":q!", "q", "exit()"}` (it does
not contain `"exit"` or `"quit"`).  For every input whose trimmed,
case-insensitive form is in that set, the session terminates immediately
with success status 0 before appending any turn, before any network call
(the oracle is never consumed — the equation holds for every oracle,
including the empty one), and with zero HistoryRecords inserted. -/
theorem c3_exit_keyword (content : String) (outs : List Outcome) (db : DB)
    (messages : List Turn) (now : Nat) (h : isExitKeyword content = true) :
    send_message outs db messages content now =
      some ⟨.exited 0, messages, db, 0⟩ := by
  cases outs <;> simp [send_message, create_message, h]

/-- C3 witness: `"  :Q! "` trims and lowercases to `":q!"`, so the session
exits with status 0, touching neither the turn list nor the store, with an
empty oracle (no network attempt possible). -/
theorem c3_witness :
    isExitKeyword "  :Q! " = true ∧
    send_message [] ⟨2, [⟨1, "q", "a", 5⟩]⟩ [⟨"user", "x"⟩] "  :Q! " 3 =
      some ⟨.exited 0, [⟨"user", "x"⟩], ⟨2, [⟨1, "q", "a", 5⟩]⟩, 0⟩ :=
  ⟨by decide,
    c3_exit_keyword "  :Q! " [] ⟨2, [⟨1, "q", "a", 5⟩]⟩ [⟨"user", "x"⟩] 3
      (by decide)⟩

/-! ## Claim C4: the storage-engine error path -/

/-- C4 (claim as stated is false at this input): when the engine reports an
error on the INSERT, `execute_request` catches the `sqlite3.Error`, logs it,
and returns `None` — nothing is raised to the caller and the process
continues, so the error is swallowed rather than surfaced to the caller. -/
theorem c4_counterexample :
    insert_message_run DB.emptyDB "2+2?" "4" 10
        (.sqliteError "disk I/O error") =
      ⟨DB.emptyDB, ["Database operation error: disk I/O error"], false⟩ ∧
    (insert_message_run DB.emptyDB "2+2?" "4" 10
        (.sqliteError "disk I/O error")).raised ≠ true := by
  constructor
  · rfl
  · decide

/-- C4 (amended): `insert` never propagates a storage-engine error: the
error is logged as `Database operation error: <message>` and the call
returns normally — no exception reaches the caller, and the store is left
unchanged (the failed INSERT inserts nothing).  Succeeding calls also raise
nothing. -/
theorem c4_error_swallowed (db : DB) (q a : String) (now : Nat)
    (e : String) :
    insert_message_run db q a now (.sqliteError e) =
      ⟨db, ["Database operation error: " ++ e], false⟩ ∧
    (insert_message_run db q a now (.ok ())).raised = false := by
  exact ⟨rfl, rfl⟩

/-! ## Helper lemmas: `selectLast` -/

lemma selectLast_cons_ne_none (r : Row) (rs : List Row) :
    selectLast (r :: rs) ≠ none := by
  simp only [selectLast]
  cases hx : selectLast rs with
  | none => simp
  | some best =>
    by_cases hb : best.timestamp > r.timestamp
    · simp [hb]
    · simp [hb]

lemma selectLast_isMax (l : List Row) :
    ∀ r, selectLast l = some r → ∀ x ∈ l, x.timestamp ≤ r.timestamp := by
  induction l with
  | nil => intro r h; simp [selectLast] at h
  | cons a rs ih =>
    intro r h
    simp only [selectLast] at h
    cases hx : selectLast rs with
    | none =>
      simp only [hx] at h
      obtain rfl := Option.some.inj h
      have hrs : rs = [] := by
        cases rs with
        | nil => rfl
        | cons b bs => exact absurd hx (selectLast_cons_ne_none b bs)
      subst hrs
      intro x hxm
      rw [List.mem_singleton] at hxm
      subst hxm
      exact le_refl _
    | some best =>
      simp only [hx] at h
      by_cases hb : best.timestamp > a.timestamp
      · rw [if_pos hb] at h
        obtain rfl := Option.some.inj h
        intro x hxm
        rcases List.mem_cons.mp hxm with rfl | hxs
        · exact le_of_lt hb
        · exact ih _ hx x hxs
      · rw [if_neg hb] at h
        obtain rfl := Option.some.inj h
        intro x hxm
        rcases List.mem_cons.mp hxm with rfl | hxs
        · exact le_refl _
        · exact le_trans (ih _ hx x hxs) (not_lt.mp hb)

lemma selectLast_mem (l : List Row) :
    ∀ r, selectLast l = some r → r ∈ l := by
  induction l with
  | nil => intro r h; simp [selectLast] at h
  | cons a rs ih =>
    intro r h
    simp only [selectLast] at h
    cases hx : selectLast rs with
    | none =>
      simp only [hx] at h
      obtain rfl := Option.some.inj h
      exact List.mem_cons_self a rs
    | some best =>
      simp only [hx] at h
      by_cases hb : best.timestamp > a.timestamp
      · rw [if_pos hb] at h
        obtain rfl := Option.some.inj h
        exact List.mem_cons_of_mem a (ih _ hx)
      · rw [if_neg hb] at h
        obtain rfl := Option.some.inj h
        exact List.mem_cons_self a rs

/-- Among the rows sharing the selected row's timestamp, the selected row
has the smallest id (when ids increase along the scan order). -/
lemma selectLast_min_id (l : List Row)
    (hid : l.Pairwise (fun x y => x.id < y.id)) :
    ∀ r, selectLast l = some r →
      ∀ x ∈ l, x.timestamp = r.timestamp → r.id ≤ x.id := by
  induction l with
  | nil => intro r h; simp [selectLast] at h
  | cons a rs ih =>
    intro r h
    simp only [selectLast] at h
    have hpa : ∀ x ∈ rs, a.id < x.id := (List.pairwise_cons.mp hid).1
    have hprs := (List.pairwise_cons.mp hid).2
    cases hx : selectLast rs with
    | none =>
      simp only [hx] at h
      obtain rfl := Option.some.inj h
      intro x hxm _
      rcases List.mem_cons.mp hxm with rfl | hxs
      · exact le_refl _
      · exact le_of_lt (hpa x hxs)
    | some best =>
      simp only [hx] at h
      by_cases hb : best.timestamp > a.timestamp
      · rw [if_pos hb] at h
        obtain rfl := Option.some.inj h
        intro x hxm hts
        rcases List.mem_cons.mp hxm with rfl | hxs
        · exact absurd hts (by omega)
        · exact ih hprs _ hx x hxs hts
      · rw [if_neg hb] at h
        obtain rfl := Option.some.inj h
        intro x hxm _
        rcases List.mem_cons.mp hxm with rfl | hxs
        · exact le_refl _
        · exact le_of_lt (hpa x hxs)

/-- Appending a row strictly newer than everything present makes it the
selected "last" row. -/
lemma selectLast_append_lt (l : List Row) (r : Row)
    (h : ∀ x ∈ l, x.timestamp < r.timestamp) :
    selectLast (l ++ [r]) = some r := by
  induction l with
  | nil => simp [selectLast]
  | cons a as ih =>
    rw [List.cons_append]
    simp only [selectLast]
    rw [ih (fun x hx => h x (List.mem_cons_of_mem a hx))]
    simp [h a (List.mem_cons_self a as)]

/-! ## Helper lemmas: insert sequences -/

lemma insertAll_spec (tr : List (String × String × Nat)) (db : DB) :
    insertAll db tr = ⟨db.nextId + tr.length, db.rows ++ rowsOf db.nextId tr⟩ := by
  induction tr generalizing db with
  | nil => cases db; simp [insertAll, rowsOf]
  | cons e rest ih =>
    rcases e with ⟨q, a, t⟩
    simp only [insertAll, rowsOf]
    rw [ih]
    simp [insert_message, List.append_assoc, List.length_cons]
    omega

lemma rowsOf_id_ge (s : Nat) (tr : List (String × String × Nat)) :
    ∀ x ∈ rowsOf s tr, s ≤ x.id := by
  induction tr generalizing s with
  | nil => intro x hx; simp [rowsOf] at hx
  | cons e rest ih =>
    rcases e with ⟨q, a, t⟩
    intro x hx
    rcases List.mem_cons.mp hx with rfl | hxs
    · exact le_refl _
    · exact le_trans (Nat.le_succ s) (ih (s + 1) x hxs)

lemma rowsOf_pairwise_id (s : Nat) (tr : List (String × String × Nat)) :
    (rowsOf s tr).Pairwise (fun x y => x.id < y.id) := by
  induction tr generalizing s with
  | nil => exact .nil
  | cons e rest ih =>
    rcases e with ⟨q, a, t⟩
    refine List.pairwise_cons.mpr ⟨fun x hx => ?_, ih (s + 1)⟩
    have := rowsOf_id_ge (s + 1) rest x hx
    simp only [rowsOf]
    omega

lemma rowsOf_map_timestamp (s : Nat) (tr : List (String × String × Nat)) :
    (rowsOf s tr).map Row.timestamp = tr.map (fun e => e.2.2) := by
  induction tr generalizing s with
  | nil => rfl
  | cons e rest ih =>
    rcases e with ⟨q, a, t⟩
    simp [rowsOf, ih]

lemma rowsOf_length (s : Nat) (tr : List (String × String × Nat)) :
    (rowsOf s tr).length = tr.length := by
  induction tr generalizing s with
  | nil => rfl
  | cons e rest ih =>
    rcases e with ⟨q, a, t⟩
    simp [rowsOf, ih]

lemma pairwise_and {α : Type} {R S : α → α → Prop} {l : List α}
    (hR : l.Pairwise R) (hS : l.Pairwise S) :
    l.Pairwise (fun a b => R a b ∧ S a b) := by
  induction l with
  | nil => exact .nil
  | cons a t ih =>
    rcases List.pairwise_cons.mp hR with ⟨hra, hrt⟩
    rcases List.pairwise_cons.mp hS with ⟨hsa, hst⟩
    exact List.pairwise_cons.mpr ⟨fun x hx => ⟨hra x hx, hsa x hx⟩, ih hrt hst⟩

/-! ## Claims C5–C8: the history store -/

/-- C5 (claim as stated is false at this input): two inserts in the same
clock second (equal timestamps).  `list_all()` returns them in insertion
order, but `last()` (`ORDER BY timestamp DESC LIMIT 1`) returns the
*earliest-inserted* of the tied records — the tie goes to the lowest id,
not the highest — so `last()` differs from the final element of
`list_all()`. -/
theorem c5_counterexample :
    get_message_history (insertAll DB.emptyDB [("a", "x", 5), ("b", "y", 5)]) =
      .ok [⟨"a", "x", readable_timestamp 5⟩, ⟨"b", "y", readable_timestamp 5⟩] ∧
    get_last_message (insertAll DB.emptyDB [("a", "x", 5), ("b", "y", 5)]) =
      .ok ⟨"a", "x", readable_timestamp 5⟩ ∧
    (⟨"a", "x", readable_timestamp 5⟩ : Message) ≠
      ⟨"b", "y", readable_timestamp 5⟩ := by
  decide

/-- C5 (amended): for every sequence of inserts whose clock readings are
non-decreasing, `list_all()` returns all records oldest first, in
non-decreasing timestamp order with ties broken by insertion order (ids
strictly increase along the returned sequence); `last()` returns a record
of maximal timestamp, but among records tied at the maximal timestamp it is
the one with the *lowest* id (earliest inserted), so it equals the final
element of `list_all()` only when the maximal timestamp is unique. -/
theorem c5_order_and_last (tr : List (String × String × Nat)) (db : DB)
    (hdb : db = insertAll DB.emptyDB tr)
    (hmono : (tr.map (fun e => e.2.2)).Chain' (· ≤ ·))
    (hne : tr ≠ []) :
    get_message_history db = .ok (db.rows.map rowToMessage) ∧
    db.rows.Pairwise (fun x y => x.timestamp ≤ y.timestamp ∧ x.id < y.id) ∧
    ∃ r, selectLast db.rows = some r ∧ r ∈ db.rows ∧
      get_last_message db = .ok (rowToMessage r) ∧
      (∀ x ∈ db.rows, x.timestamp ≤ r.timestamp) ∧
      (∀ x ∈ db.rows, x.timestamp = r.timestamp → r.id ≤ x.id) := by
  have hrows : db.rows = rowsOf 1 tr := by
    rw [hdb, insertAll_spec]
    simp [DB.emptyDB]
  have hLne : rowsOf 1 tr ≠ [] := by
    intro hnil
    apply hne
    have hlen := rowsOf_length 1 tr
    rw [hnil] at hlen
    exact List.length_eq_zero.mp hlen.symm
  obtain ⟨r0, rs0, hL⟩ := List.exists_cons_of_ne_nil hLne
  have hid : (rowsOf 1 tr).Pairwise (fun x y => x.id < y.id) :=
    rowsOf_pairwise_id 1 tr
  have hts : (rowsOf 1 tr).Pairwise
      (fun x y => x.timestamp ≤ y.timestamp) := by
    have hp : (tr.map (fun e => e.2.2)).Pairwise (· ≤ ·) :=
      List.chain'_iff_pairwise.mp hmono
    rw [← rowsOf_map_timestamp 1 tr] at hp
    exact List.pairwise_map.mp hp
  refine ⟨?_, ?_, ?_⟩
  · simp [get_message_history, hrows, hL]
  · rw [hrows]
    exact pairwise_and hts hid
  · cases hsl : selectLast db.rows with
    | none =>
      rw [hrows, hL] at hsl
      exact absurd hsl (selectLast_cons_ne_none r0 rs0)
    | some r =>
      refine ⟨r, rfl, selectLast_mem db.rows r hsl, ?_, ?_, ?_⟩
      · simp [get_last_message, hsl]
      · exact selectLast_isMax db.rows r hsl
      · rw [hrows] at hsl ⊢
        exact selectLast_min_id (rowsOf 1 tr) hid r hsl

/-- C5 witness: two inserts at increasing timestamps. -/
theorem c5_witness :
    ([("a", "x", 5), ("b", "y", 6)].map
      (fun e : String × String × Nat => e.2.2)).Chain' (· ≤ ·) ∧
    ([("a", "x", 5), ("b", "y", 6)] : List (String × String × Nat)) ≠ [] ∧
    (get_message_history (insertAll DB.emptyDB [("a", "x", 5), ("b", "y", 6)]) =
      .ok ((insertAll DB.emptyDB [("a", "x", 5), ("b", "y", 6)]).rows.map
        rowToMessage) ∧
    (insertAll DB.emptyDB [("a", "x", 5), ("b", "y", 6)]).rows.Pairwise
      (fun x y => x.timestamp ≤ y.timestamp ∧ x.id < y.id) ∧
    ∃ r, selectLast (insertAll DB.emptyDB
          [("a", "x", 5), ("b", "y", 6)]).rows = some r ∧
      r ∈ (insertAll DB.emptyDB [("a", "x", 5), ("b", "y", 6)]).rows ∧
      get_last_message (insertAll DB.emptyDB [("a", "x", 5), ("b", "y", 6)]) =
        .ok (rowToMessage r) ∧
      (∀ x ∈ (insertAll DB.emptyDB [("a", "x", 5), ("b", "y", 6)]).rows,
        x.timestamp ≤ r.timestamp) ∧
      (∀ x ∈ (insertAll DB.emptyDB [("a", "x", 5), ("b", "y", 6)]).rows,
        x.timestamp = r.timestamp → r.id ≤ x.id)) :=
  ⟨by simp [List.chain'_cons], by decide,
    c5_order_and_last [("a", "x", 5), ("b", "y", 6)] _ rfl
      (by simp [List.chain'_cons]) (by decide)⟩

/-- C6 (claim as stated is false at this input): the answer is *not* stored
in stripped form — `insert_message` stores it exactly as given (`" 4 "`),
and stripping happens only when a read operation returns it. -/
theorem c6_counterexample :
    (insert_message DB.emptyDB "2+2?" " 4 " 10).rows =
      [⟨1, "2+2?", " 4 ", 10⟩] ∧
    (" 4 " : String) ≠ pyStrip " 4 " := by
  decide

/-- C6 (amended): after `insert(q, a)` at a clock reading strictly newer
than every stored timestamp, `last()` returns a record whose `answer` is
`a` with surrounding whitespace stripped and whose `question` is `q`
exactly; but in the store itself both text fields are kept exactly as
given — the answer is stripped on read, not at insert. -/
theorem c6_insert_then_last (db : DB) (q a : String) (now : Nat)
    (h : ∀ x ∈ db.rows, x.timestamp < now) :
    (insert_message db q a now).rows = db.rows ++ [⟨db.nextId, q, a, now⟩] ∧
    get_last_message (insert_message db q a now) =
      .ok ⟨q, pyStrip a, readable_timestamp now⟩ := by
  refine ⟨rfl, ?_⟩
  simp only [get_last_message, insert_message]
  rw [selectLast_append_lt db.rows ⟨db.nextId, q, a, now⟩ h]
  rfl

/-- C6 witness: inserting `(" 2+2? ", " 4 ")` at time 10 over a store whose
single record is older. -/
theorem c6_witness :
    (∀ x ∈ (⟨2, [⟨1, "old", "ans", 5⟩]⟩ : DB).rows, x.timestamp < 10) ∧
    ((insert_message ⟨2, [⟨1, "old", "ans", 5⟩]⟩ "2+2?" " 4 " 10).rows =
      (⟨2, [⟨1, "old", "ans", 5⟩]⟩ : DB).rows ++ [⟨2, "2+2?", " 4 ", 10⟩] ∧
    get_last_message (insert_message ⟨2, [⟨1, "old", "ans", 5⟩]⟩
        "2+2?" " 4 " 10) =
      .ok ⟨"2+2?", pyStrip " 4 ", readable_timestamp 10⟩) :=
  ⟨by decide,
    c6_insert_then_last ⟨2, [⟨1, "old", "ans", 5⟩]⟩ "2+2?" " 4 " 10
      (by decide)⟩

/-- C7: on every non-empty store (with the primary-key invariant that ids
strictly increase in scan order), `delete_last_message` removes exactly one
record — the very record `get_last_message` would have returned — and every
other record is left byte-identical, in its original position. -/
theorem c7_delete_last (db : DB)
    (hid : db.rows.Pairwise (fun x y => x.id < y.id))
    (hne : db.rows ≠ []) :
    ∃ r l1 l2, selectLast db.rows = some r ∧ db.rows = l1 ++ r :: l2 ∧
      get_last_message db = .ok (rowToMessage r) ∧
      delete_last_message db = .ok ⟨db.nextId, l1 ++ l2⟩ := by
  obtain ⟨r0, rs0, hL⟩ := List.exists_cons_of_ne_nil hne
  cases hsl : selectLast db.rows with
  | none =>
    rw [hL] at hsl
    exact absurd hsl (selectLast_cons_ne_none r0 rs0)
  | some r =>
    have hmem : r ∈ db.rows := selectLast_mem db.rows r hsl
    obtain ⟨l1, l2, hdecomp⟩ := List.append_of_mem hmem
    refine ⟨r, l1, l2, rfl, hdecomp, ?_, ?_⟩
    · simp [get_last_message, hsl]
    · simp only [delete_last_message, hsl]
      have hfilter : db.rows.filter (fun x => x.id ≠ r.id) = l1 ++ l2 := by
        rw [hdecomp] at hid ⊢
        rcases List.pairwise_append.mp hid with ⟨h1, h2, hcross⟩
        have hl1 : ∀ x ∈ l1, x.id ≠ r.id := fun x hx =>
          Nat.ne_of_lt (hcross x hx r (List.mem_cons_self r l2))
        have hl2 : ∀ x ∈ l2, x.id ≠ r.id := fun x hx =>
          (Nat.ne_of_lt ((List.pairwise_cons.mp h2).1 x hx)).symm
        rw [List.filter_append]
        rw [List.filter_cons_of_neg]
        · rw [List.filter_eq_self.mpr (fun a ha => by simpa using hl1 a ha),
            List.filter_eq_self.mpr (fun a ha => by simpa using hl2 a ha)]
        · simp
      rw [hfilter]

/-- C7 witness: a two-record store; the newer record is deleted and the
older one is untouched. -/
theorem c7_witness :
    (⟨3, [⟨1, "a", "x", 5⟩, ⟨2, "b", "y", 6⟩]⟩ : DB).rows.Pairwise
      (fun x y => x.id < y.id) ∧
    (⟨3, [⟨1, "a", "x", 5⟩, ⟨2, "b", "y", 6⟩]⟩ : DB).rows ≠ [] ∧
    (∃ r l1 l2,
      selectLast (⟨3, [⟨1, "a", "x", 5⟩, ⟨2, "b", "y", 6⟩]⟩ : DB).rows =
        some r ∧
      (⟨3, [⟨1, "a", "x", 5⟩, ⟨2, "b", "y", 6⟩]⟩ : DB).rows = l1 ++ r :: l2 ∧
      get_last_message ⟨3, [⟨1, "a", "x", 5⟩, ⟨2, "b", "y", 6⟩]⟩ =
        .ok (rowToMessage r) ∧
      delete_last_message ⟨3, [⟨1, "a", "x", 5⟩, ⟨2, "b", "y", 6⟩]⟩ =
        .ok ⟨(⟨3, [⟨1, "a", "x", 5⟩, ⟨2, "b", "y", 6⟩]⟩ : DB).nextId,
          l1 ++ l2⟩) :=
  ⟨by decide, by decide,
    c7_delete_last ⟨3, [⟨1, "a", "x", 5⟩, ⟨2, "b", "y", 6⟩]⟩ (by decide)
      (by decide)⟩

/-- C8: on an empty store, `clear_message_history` succeeds with no error,
while `get_last_message` and `delete_last_message` both hit the
empty-history condition, whose handler (`handle_error`) logs the message
and terminates the process with exit status 1. -/
theorem c8_empty_store (db : DB) (h : db.rows = []) :
    clear_message_history db = .ok ⟨db.nextId, []⟩ ∧
    get_last_message db =
      .exited 1 "[-] There are no messages in the database yet." ∧
    delete_last_message db =
      .exited 1 "[-] There are no messages in the database yet." := by
  refine ⟨rfl, ?_, ?_⟩ <;>
    simp [get_last_message, delete_last_message, h, selectLast]

/-- C8 witness: the freshly created database. -/
theorem c8_witness :
    DB.emptyDB.rows = [] ∧
    (clear_message_history DB.emptyDB = .ok ⟨DB.emptyDB.nextId, []⟩ ∧
    get_last_message DB.emptyDB =
      .exited 1 "[-] There are no messages in the database yet." ∧
    delete_last_message DB.emptyDB =
      .exited 1 "[-] There are no messages in the database yet.") :=
  ⟨rfl, c8_empty_store DB.emptyDB rfl⟩

/-! ## Claims C9–C10: request shape and read-back format -/

/-- C9: `send_request` chooses its request shape solely by whether the
configured engine is in the configured chat-capable set.  If it is, the full
ordered turn sequence is sent and the response's message text is returned;
otherwise only the content of the most recent turn is sent as a flat prompt
together with the configured temperature and `max_tokens`, and the
response's generated text is returned — two message lists with the same
final turn produce the same non-chat request. -/
theorem c9_request_shape (api : Request → String) (cfg : ConfigGPT)
    (messages : List Turn) (t : Turn)
    (hlast : messages.getLast? = some t) :
    (cfg.chat_models.contains cfg.engine = true →
      send_request_req cfg messages =
        some (.chatCompletion cfg.engine messages) ∧
      send_request api cfg messages =
        some (api (.chatCompletion cfg.engine messages))) ∧
    (cfg.chat_models.contains cfg.engine = false →
      send_request_req cfg messages =
        some (.completion cfg.engine t.content cfg.temperature
          cfg.max_tokens) ∧
      send_request api cfg messages =
        some (api (.completion cfg.engine t.content cfg.temperature
          cfg.max_tokens)) ∧
      ∀ messages' : List Turn, messages'.getLast? = some t →
        send_request_req cfg messages' = send_request_req cfg messages) := by
  constructor
  · intro h
    have hm : cfg.engine ∈ cfg.chat_models := by simpa using h
    constructor <;> simp [send_request_req, send_request, hm]
  · intro h
    have hm : cfg.engine ∉ cfg.chat_models := by simpa using h
    refine ⟨?_, ?_, ?_⟩
    · simp [send_request_req, hm, hlast]
    · simp [send_request, send_request_req, hm, hlast]
    · intro messages' hlast'
      simp [send_request_req, hm, hlast, hlast']

/-- C9 witness: the default configuration (`gpt-3.5-turbo` is in the default
chat-capable set) with a one-turn conversation. -/
theorem c9_witness :
    ([(⟨"user", "hi"⟩ : Turn)].getLast? = some ⟨"user", "hi"⟩) ∧
    (((⟨"key", DEFAULT_TEMPERATURE, DEFAULT_ENGINE, DEFAULT_MAX_TOKENS,
        defaultChatModels⟩ : ConfigGPT).chat_models.contains
          (⟨"key", DEFAULT_TEMPERATURE, DEFAULT_ENGINE, DEFAULT_MAX_TOKENS,
            defaultChatModels⟩ : ConfigGPT).engine = true →
      send_request_req
          ⟨"key", DEFAULT_TEMPERATURE, DEFAULT_ENGINE, DEFAULT_MAX_TOKENS,
            defaultChatModels⟩ [⟨"user", "hi"⟩] =
        some (.chatCompletion
          (⟨"key", DEFAULT_TEMPERATURE, DEFAULT_ENGINE, DEFAULT_MAX_TOKENS,
            defaultChatModels⟩ : ConfigGPT).engine [⟨"user", "hi"⟩]) ∧
      send_request (fun _ => "resp")
          ⟨"key", DEFAULT_TEMPERATURE, DEFAULT_ENGINE, DEFAULT_MAX_TOKENS,
            defaultChatModels⟩ [⟨"user", "hi"⟩] =
        some ((fun _ => "resp")
          (Request.chatCompletion
            (⟨"key", DEFAULT_TEMPERATURE, DEFAULT_ENGINE, DEFAULT_MAX_TOKENS,
              defaultChatModels⟩ : ConfigGPT).engine [⟨"user", "hi"⟩]))) ∧
    ((⟨"key", DEFAULT_TEMPERATURE, DEFAULT_ENGINE, DEFAULT_MAX_TOKENS,
        defaultChatModels⟩ : ConfigGPT).chat_models.contains
          (⟨"key", DEFAULT_TEMPERATURE, DEFAULT_ENGINE, DEFAULT_MAX_TOKENS,
            defaultChatModels⟩ : ConfigGPT).engine = false →
      send_request_req
          ⟨"key", DEFAULT_TEMPERATURE, DEFAULT_ENGINE, DEFAULT_MAX_TOKENS,
            defaultChatModels⟩ [⟨"user", "hi"⟩] =
        some (.completion
          (⟨"key", DEFAULT_TEMPERATURE, DEFAULT_ENGINE, DEFAULT_MAX_TOKENS,
            defaultChatModels⟩ : ConfigGPT).engine
          (⟨"user", "hi"⟩ : Turn).content
          (⟨"key", DEFAULT_TEMPERATURE, DEFAULT_ENGINE, DEFAULT_MAX_TOKENS,
            defaultChatModels⟩ : ConfigGPT).temperature
          (⟨"key", DEFAULT_TEMPERATURE, DEFAULT_ENGINE, DEFAULT_MAX_TOKENS,
            defaultChatModels⟩ : ConfigGPT).max_tokens) ∧
      send_request (fun _ => "resp")
          ⟨"key", DEFAULT_TEMPERATURE, DEFAULT_ENGINE, DEFAULT_MAX_TOKENS,
            defaultChatModels⟩ [⟨"user", "hi"⟩] =
        some ((fun _ => "resp")
          (Request.completion
            (⟨"key", DEFAULT_TEMPERATURE, DEFAULT_ENGINE, DEFAULT_MAX_TOKENS,
              defaultChatModels⟩ : ConfigGPT).engine
            (⟨"user", "hi"⟩ : Turn).content
            (⟨"key", DEFAULT_TEMPERATURE, DEFAULT_ENGINE, DEFAULT_MAX_TOKENS,
              defaultChatModels⟩ : ConfigGPT).temperature
            (⟨"key", DEFAULT_TEMPERATURE, DEFAULT_ENGINE, DEFAULT_MAX_TOKENS,
              defaultChatModels⟩ : ConfigGPT).max_tokens)) ∧
      ∀ messages' : List Turn,
        messages'.getLast? = some (⟨"user", "hi"⟩ : Turn) →
        send_request_req
            ⟨"key", DEFAULT_TEMPERATURE, DEFAULT_ENGINE, DEFAULT_MAX_TOKENS,
              defaultChatModels⟩ messages' =
          send_request_req
            ⟨"key", DEFAULT_TEMPERATURE, DEFAULT_ENGINE, DEFAULT_MAX_TOKENS,
              defaultChatModels⟩ [⟨"user", "hi"⟩])) :=
  ⟨rfl,
    c9_request_shape (fun _ => "resp")
      ⟨"key", DEFAULT_TEMPERATURE, DEFAULT_ENGINE, DEFAULT_MAX_TOKENS,
        defaultChatModels⟩ [⟨"user", "hi"⟩] ⟨"user", "hi"⟩ rfl⟩

lemma digitChar_isDigit (n : Nat) : (digitChar n).isDigit = true := by
  unfold digitChar
  obtain ⟨m, hm, hlt⟩ : ∃ m, n % 10 = m ∧ m < 10 :=
    ⟨n % 10, rfl, Nat.mod_lt _ (by decide)⟩
  rw [hm]
  interval_cases m <;> decide

lemma isTimestampFormat_readable (ts : Nat) :
    isTimestampFormat (readable_timestamp ts) = true := by
  unfold readable_timestamp isTimestampFormat
  simp [digitChar_isDigit]

/-- C10: the records returned by the history-read operations carry the
timestamp as the human-readable UTC string `%Y-%m-%d %H:%M:%S` (four digits,
dash, two digits, dash, two digits, space, two digits, colon, two digits,
colon, two digits), not the stored integer, and carry no id: two stored rows
differing only in id produce identical returned records.  (The timestamp
bound keeps every year below 10000, the range the fixed-width rendering
covers.) -/
theorem c10_readable_no_id (db : DB) (hne : db.rows ≠ [])
    (hbound : ∀ x ∈ db.rows, x.timestamp < 253402300800) :
    get_message_history db = .ok (db.rows.map rowToMessage) ∧
    (∀ x ∈ db.rows,
      (rowToMessage x).timestamp = readable_timestamp x.timestamp ∧
      isTimestampFormat (rowToMessage x).timestamp = true) ∧
    (∀ i i' q a t, rowToMessage ⟨i, q, a, t⟩ = rowToMessage ⟨i', q, a, t⟩) ∧
    ∃ r ∈ db.rows, get_last_message db = .ok (rowToMessage r) := by
  obtain ⟨r0, rs0, hL⟩ := List.exists_cons_of_ne_nil hne
  refine ⟨?_, ?_, ?_, ?_⟩
  · simp [get_message_history, hL]
  · intro x _
    exact ⟨rfl, isTimestampFormat_readable x.timestamp⟩
  · intro i i' q a t
    rfl
  · cases hsl : selectLast db.rows with
    | none =>
      rw [hL] at hsl
      exact absurd hsl (selectLast_cons_ne_none r0 rs0)
    | some r =>
      exact ⟨r, selectLast_mem db.rows r hsl,
        by simp [get_last_message, hsl]⟩

/-- C10 witness: a one-record store. -/
theorem c10_witness :
    ((⟨2, [⟨1, "q", " a ", 5⟩]⟩ : DB).rows ≠ []) ∧
    (∀ x ∈ (⟨2, [⟨1, "q", " a ", 5⟩]⟩ : DB).rows,
      x.timestamp < 253402300800) ∧
    (get_message_history ⟨2, [⟨1, "q", " a ", 5⟩]⟩ =
      .ok ((⟨2, [⟨1, "q", " a ", 5⟩]⟩ : DB).rows.map rowToMessage) ∧
    (∀ x ∈ (⟨2, [⟨1, "q", " a ", 5⟩]⟩ : DB).rows,
      (rowToMessage x).timestamp = readable_timestamp x.timestamp ∧
      isTimestampFormat (rowToMessage x).timestamp = true) ∧
    (∀ i i' q a t, rowToMessage ⟨i, q, a, t⟩ = rowToMessage ⟨i', q, a, t⟩) ∧
    ∃ r ∈ (⟨2, [⟨1, "q", " a ", 5⟩]⟩ : DB).rows,
      get_last_message ⟨2, [⟨1, "q", " a ", 5⟩]⟩ = .ok (rowToMessage r)) :=
  ⟨by decide, by decide,
    c10_readable_no_id ⟨2, [⟨1, "q", " a ", 5⟩]⟩ (by decide) (by decide)⟩
